import Mathlib

/-!
Shallow embedding of the process/service supervision subsystem of the
`bdd-vitest` library (source: `src/service.ts` / `mock-ai.ts` bundle):
`startService`, `waitForReady`, `startCluster`, `stopProcess`,
`assertPerformance` and the accessors of a `RunningService`.

Conventions of the embedding:
- Time is measured in integer milliseconds (`Nat`).
- The behaviour of the spawned child process and of the network is an
  explicit parameter (`ProcBehavior`): cumulative combined stdout+stderr
  text at each instant, an optional exit event, and the outcome of an
  HTTP poll issued at each instant.
- JavaScript strings are Lean `String`s; `String.prototype.includes` is
  `strIncludes`, `String.prototype.slice(-n)` is `sliceLast`.
- Timers follow Node.js semantics: `setInterval(f, p)` fires at p, 2p, ...;
  the `setTimeout` of the overall start timeout was registered first, so at
  a tie the timeout wins; `setInterval(f, 0)` is clamped to 1 ms.
- Promise rejection / `throw` is `Except.error` carrying the message.
-/

-- ### String toolkit: JS `includes` and `slice(-n)`

/-- `p` is an initial run of the second list (helper for `listInfixOf`). -/
def listPrefixOf : List Char → List Char → Bool
  | [], _ => true
  | _ :: _, [] => false
  | a :: as, b :: bs => a == b && listPrefixOf as bs

/-- `needle` occurs as a contiguous run inside `hay`
(JS `hay.includes(needle)`). -/
def listInfixOf (needle : List Char) : List Char → Bool
  | [] => needle.isEmpty
  | c :: t => listPrefixOf needle (c :: t) || listInfixOf needle t

/-- JS `hay.includes(needle)`. -/
def strIncludes (hay needle : String) : Bool :=
  listInfixOf needle.data hay.data

/-- JS `s.slice(-n)`: the last `n` characters of `s` (all of `s` when
`s` is shorter than `n`). -/
def sliceLast (s : String) (n : Nat) : String :=
  String.mk (s.data.drop (s.data.length - n))

theorem listInfixOf_nil_left : ∀ h : List Char, listInfixOf [] h = true
  | [] => rfl
  | _ :: _ => by simp [listInfixOf, listPrefixOf]

theorem listInfixOf_of_listPrefixOf {n h : List Char}
    (hp : listPrefixOf n h = true) : listInfixOf n h = true := by
  cases h with
  | nil =>
    cases n with
    | nil => rfl
    | cons c t => simp [listPrefixOf] at hp
  | cons c t => simp [listInfixOf, hp]

theorem listInfixOf_cons {n t : List Char} (c : Char)
    (hp : listInfixOf n t = true) : listInfixOf n (c :: t) = true := by
  simp [listInfixOf, hp]

theorem listPrefixOf_append_self : ∀ n rest : List Char,
    listPrefixOf n (n ++ rest) = true
  | [], _ => rfl
  | c :: t, rest => by
    simp [listPrefixOf, listPrefixOf_append_self t rest]

theorem listPrefixOf_append_weaken : ∀ {n x : List Char} (w : List Char),
    listPrefixOf n x = true → listPrefixOf n (x ++ w) = true
  | [], _, _, _ => rfl
  | c :: t, [], w, hp => by simp [listPrefixOf] at hp
  | c :: t, d :: x, w, hp => by
    simp only [listPrefixOf, Bool.and_eq_true] at hp
    simp only [List.cons_append, listPrefixOf, Bool.and_eq_true]
    exact ⟨hp.1, listPrefixOf_append_weaken w hp.2⟩

theorem listInfixOf_append_left : ∀ {n a : List Char} (b : List Char),
    listInfixOf n a = true → listInfixOf n (a ++ b) = true := by
  intro n a
  induction a with
  | nil =>
    intro b h
    have : n = [] := by
      cases n with
      | nil => rfl
      | cons c t => simp [listInfixOf, List.isEmpty] at h
    subst this
    exact listInfixOf_nil_left b
  | cons c t ih =>
    intro b h
    simp only [listInfixOf, Bool.or_eq_true] at h
    rcases h with h | h
    · exact listInfixOf_of_listPrefixOf (listPrefixOf_append_weaken b h)
    · exact listInfixOf_cons c (ih b h)

theorem listInfixOf_append_right : ∀ (a : List Char) {n b : List Char},
    listInfixOf n b = true → listInfixOf n (a ++ b) = true
  | [], _, _, h => h
  | c :: t, _, _, h => listInfixOf_cons c (listInfixOf_append_right t h)

theorem strData_append (a b : String) : (a ++ b).data = a.data ++ b.data :=
  rfl

theorem strIncludes_self (a : String) : strIncludes a a = true := by
  unfold strIncludes
  have h := listPrefixOf_append_self a.data []
  rw [List.append_nil] at h
  exact listInfixOf_of_listPrefixOf h

theorem strIncludes_append_left {a n : String} (b : String)
    (h : strIncludes a n = true) : strIncludes (a ++ b) n = true := by
  unfold strIncludes at h ⊢
  rw [strData_append]
  exact listInfixOf_append_left b.data h

theorem strIncludes_append_right (a : String) {b n : String}
    (h : strIncludes b n = true) : strIncludes (a ++ b) n = true := by
  unfold strIncludes at h ⊢
  rw [strData_append]
  exact listInfixOf_append_right a.data h

/-- The final appended block of a message is contained in it. -/
theorem strIncludes_append_self (a b : String) :
    strIncludes (a ++ b) b = true :=
  strIncludes_append_right a (strIncludes_self b)

example : strIncludes "hello world" "lo wo" = true := by decide
example : strIncludes "hello" "z" = false := by decide
example : sliceLast "abcdef" 3 = "def" := by decide
example : sliceLast "ab" 500 = "ab" := by decide

-- ### Data model (from `ServiceConfig` / `RunningService` in the source)

/-- Outcome of one `fetch` call: a network/timeout/abort error, or a
response with an HTTP status code.  `res.ok` is status 200–299. -/
inductive FetchOutcome where
  | failure
  | response (status : Nat)
deriving DecidableEq

/-- The `ok` getter of a fetch `Response` (2xx-class status). -/
def fetchOk : FetchOutcome → Bool
  | FetchOutcome.failure => false
  | FetchOutcome.response s => decide (200 ≤ s) && decide (s < 300)

/-- The `ready` descriptor of a `ServiceConfig`. -/
structure ReadyDescr where
  signal : Option String
  url : Option String
  pollMs : Option Nat
deriving DecidableEq

/-- `ServiceConfig` (the fields that affect the modelled semantics;
`cwd`/`env` only parameterize the spawn and are not modelled). -/
structure ServiceConfig where
  name : String
  command : String
  args : List String
  ready : ReadyDescr
  /-- `health?.url` -/
  healthUrl : Option String
  startTimeoutMs : Option Nat
  stopTimeoutMs : Option Nat
  /-- `requires?.gpu` -/
  requiresGpu : Bool
deriving DecidableEq

/-- JS truthiness of an optional string field (`if (ready.signal)`):
`undefined` and the empty string are both falsy. -/
def optTruthy : Option String → Option String
  | some s => if s = "" then none else some s
  | none => none

/-- The environment-determined behaviour of the spawned child process:
`output t` is the combined stdout+stderr text accumulated by time `t` ms,
`exitAt` the (time, exit code) of the process's exit event if any, and
`fetchReadyAt t` the outcome of the readiness-URL poll issued at time `t`. -/
structure ProcBehavior where
  output : Nat → String
  exitAt : Option (Nat × Nat)
  fetchReadyAt : Nat → FetchOutcome

/-- `proc.exitCode` as observed at time `t`. -/
def exitCodeAt (b : ProcBehavior) (t : Nat) : Option Nat :=
  match b.exitAt with
  | some (te, c) => if te ≤ t then some c else none
  | none => none

/-- The kill/exit state of the child process handle:
`killed` is `proc.killed` (a kill signal has been sent),
`exitCode` is `proc.exitCode`. -/
structure ProcState where
  killed : Bool
  exitCode : Option Nat
deriving DecidableEq

/-- `isAlive: () => !proc.killed && proc.exitCode === null`. -/
def isAliveState (st : ProcState) : Bool :=
  !st.killed && st.exitCode.isNone

-- ### Diagnostic messages (verbatim from the source template literals)

/-- `[${name}]` tag prefixed to every diagnostic. -/
def nameTag (name : String) : String := "[" ++ name ++ "]"

/-- Message of the start-timeout rejection. -/
def notReadyMessage (name : String) (timeoutMs : Nat) (out : String) : String :=
  nameTag name ++ " Not ready within " ++ toString timeoutMs ++
    "ms.\nOutput: " ++ sliceLast out 500

/-- Message of the exited-before-ready rejection. -/
def exitedMessage (name : String) (code : Nat) (out : String) : String :=
  nameTag name ++ " Exited with code " ++ toString code ++
    " before ready.\nOutput: " ++ sliceLast out 500

/-- Message of the missing-ready-descriptor rejection. -/
def noReadyConfigMessage (name : String) : String :=
  nameTag name ++ " No ready signal or URL configured"

/-- Message of the GPU-requirement rejection. -/
def gpuMessage (name : String) : String :=
  nameTag name ++ " Requires GPU but none detected. Skip with: scenario.skip(...)"

-- ### `waitForReady`

/-- Result of `waitForReady`: resolution at time `t`, or rejection with a
message; `killedByWait` records whether the handler sent SIGKILL before
rejecting, `t` the time of settlement. -/
inductive WaitResult where
  | ready (t : Nat)
  | failed (msg : String) (killedByWait : Bool) (t : Nat)
deriving DecidableEq

/-- Signal strategy: `setInterval(..., 50)` checks, at each tick,
first whether the accumulated output contains the signal, then whether
the process has exited; the `setTimeout(timeoutMs)` (registered first,
so it wins ties) SIGKILLs and rejects when the fuel runs out.
`k` is the index of the next interval tick (time `50 * k`). -/
def signalLoop (name sig : String) (b : ProcBehavior) (timeoutMs : Nat) :
    Nat → Nat → WaitResult
  | 0, _ =>
    WaitResult.failed (notReadyMessage name timeoutMs (b.output timeoutMs))
      true timeoutMs
  | fuel + 1, k =>
    if strIncludes (b.output (50 * k)) sig then WaitResult.ready (50 * k)
    else
      match exitCodeAt b (50 * k) with
      | some c =>
        WaitResult.failed (exitedMessage name c (b.output (50 * k)))
          false (50 * k)
      | none => signalLoop name sig b timeoutMs fuel (k + 1)

/-- URL strategy: `setInterval(..., pollMs)` polls the readiness URL; a
2xx response resolves; there is no exit check; the timeout SIGKILLs and
rejects when the fuel runs out. -/
def urlLoop (name : String) (b : ProcBehavior) (timeoutMs pollMs : Nat) :
    Nat → Nat → WaitResult
  | 0, _ =>
    WaitResult.failed (notReadyMessage name timeoutMs (b.output timeoutMs))
      true timeoutMs
  | fuel + 1, k =>
    if fetchOk (b.fetchReadyAt (pollMs * k)) then WaitResult.ready (pollMs * k)
    else urlLoop name b timeoutMs pollMs fuel (k + 1)

/-- Number of interval ticks of period `p` that fire strictly before the
timeout at `timeoutMs` (at a tie the timeout wins, see header note). -/
def intervalTicks (timeoutMs p : Nat) : Nat := (timeoutMs - 1) / p

/-- `waitForReady(proc, name, ready, timeoutMs, getOutput)`.
`if (ready.signal)` / `else if (ready.url)` use JS truthiness;
`ready.pollMs ?? 500` is nullish coalescing, and Node clamps a zero
interval period to 1 ms. -/
def waitForReady (name : String) (ready : ReadyDescr) (timeoutMs : Nat)
    (b : ProcBehavior) : WaitResult :=
  match optTruthy ready.signal with
  | some sig => signalLoop name sig b timeoutMs (intervalTicks timeoutMs 50) 1
  | none =>
    match optTruthy ready.url with
    | some _ =>
      let p := max 1 (ready.pollMs.getD 500)
      urlLoop name b timeoutMs p (intervalTicks timeoutMs p) 1
    | none => WaitResult.failed (noReadyConfigMessage name) false 0

-- ### `startService`

/-- The `RunningService` handle produced on successful readiness, with the
process state frozen at the instant of resolution. -/
structure RunningServiceModel where
  name : String
  startupMs : Nat
  healthUrl : Option String
  stopTimeoutMs : Nat
  procState : ProcState
deriving DecidableEq

/-- Result of `startService`: a handle, a rejection before any spawn
(GPU requirement), or a rejection after the spawn together with the
state of the spawned process at the moment the error is reported. -/
inductive StartResult where
  | ok (svc : RunningServiceModel)
  | errNoSpawn (msg : String)
  | err (msg : String) (proc : ProcState)
deriving DecidableEq

/-- `startService(config)` under child-process behaviour `b`;
`hasGpu` is the host's `nvidia-smi` probe result. -/
def startService (cfg : ServiceConfig) (hasGpu : Bool) (b : ProcBehavior) :
    StartResult :=
  if cfg.requiresGpu && !hasGpu then StartResult.errNoSpawn (gpuMessage cfg.name)
  else
    match waitForReady cfg.name cfg.ready (cfg.startTimeoutMs.getD 15000) b with
    | WaitResult.ready t =>
      StartResult.ok
        { name := cfg.name
          startupMs := t
          healthUrl := cfg.healthUrl
          stopTimeoutMs := cfg.stopTimeoutMs.getD 5000
          procState := { killed := false, exitCode := exitCodeAt b t } }
    | WaitResult.failed msg killed t =>
      StartResult.err msg { killed := killed, exitCode := exitCodeAt b t }

-- Sanity checks of the model on concrete runs.
example :
    startService
      { name := "svc", command := "node", args := [],
        ready := { signal := some "READY", url := none, pollMs := none },
        healthUrl := none, startTimeoutMs := some 200,
        stopTimeoutMs := none, requiresGpu := false }
      true
      { output := fun t => if 100 ≤ t then "READY" else "",
        exitAt := none, fetchReadyAt := fun _ => FetchOutcome.failure } =
    StartResult.ok
      { name := "svc", startupMs := 100, healthUrl := none,
        stopTimeoutMs := 5000,
        procState := { killed := false, exitCode := none } } := by decide

example :
    startService
      { name := "svc", command := "node", args := [],
        ready := { signal := none, url := some "http://h", pollMs := some 50 },
        healthUrl := none, startTimeoutMs := some 200,
        stopTimeoutMs := none, requiresGpu := false }
      true
      { output := fun _ => "", exitAt := none,
        fetchReadyAt := fun t =>
          if 100 ≤ t then FetchOutcome.response 204 else FetchOutcome.failure } =
    StartResult.ok
      { name := "svc", startupMs := 100, healthUrl := none,
        stopTimeoutMs := 5000,
        procState := { killed := false, exitCode := none } } := by decide

-- ### Characterization of the readiness loops

theorem signalLoop_timeout (name sig : String) (b : ProcBehavior) (T : Nat) :
    ∀ fuel k,
    (∀ j, k ≤ j → j < k + fuel →
      strIncludes (b.output (50 * j)) sig = false ∧
      exitCodeAt b (50 * j) = none) →
    signalLoop name sig b T fuel k =
      WaitResult.failed (notReadyMessage name T (b.output T)) true T := by
  intro fuel
  induction fuel with
  | zero => intro k _; rfl
  | succ n ih =>
    intro k h
    have hk := h k le_rfl (by omega)
    simp only [signalLoop, hk.1, hk.2, Bool.false_eq_true, if_false]
    exact ih (k + 1) (fun j hj1 hj2 => h j (by omega) (by omega))

theorem signalLoop_ready (name sig : String) (b : ProcBehavior) (T : Nat) :
    ∀ fuel k m,
    k ≤ m → m < k + fuel →
    strIncludes (b.output (50 * m)) sig = true →
    (∀ j, k ≤ j → j < m →
      strIncludes (b.output (50 * j)) sig = false ∧
      exitCodeAt b (50 * j) = none) →
    signalLoop name sig b T fuel k = WaitResult.ready (50 * m) := by
  intro fuel
  induction fuel with
  | zero => intro k m h1 h2 _ _; omega
  | succ n ih =>
    intro k m hkm hlt hmatch hfirst
    by_cases hk : k = m
    · subst hk
      simp [signalLoop, hmatch]
    · have hkm2 : k < m := lt_of_le_of_ne hkm hk
      have hj := hfirst k le_rfl hkm2
      simp only [signalLoop, hj.1, hj.2, Bool.false_eq_true, if_false]
      exact ih (k + 1) m (by omega) (by omega) hmatch
        (fun j hj1 hj2 => hfirst j (by omega) hj2)

theorem signalLoop_exit (name sig : String) (b : ProcBehavior) (T : Nat) :
    ∀ fuel k m c,
    k ≤ m → m < k + fuel →
    strIncludes (b.output (50 * m)) sig = false →
    exitCodeAt b (50 * m) = some c →
    (∀ j, k ≤ j → j < m →
      strIncludes (b.output (50 * j)) sig = false ∧
      exitCodeAt b (50 * j) = none) →
    signalLoop name sig b T fuel k =
      WaitResult.failed (exitedMessage name c (b.output (50 * m)))
        false (50 * m) := by
  intro fuel
  induction fuel with
  | zero => intro k m c h1 h2 _ _ _; omega
  | succ n ih =>
    intro k m c hkm hlt hnomatch hexit hfirst
    by_cases hk : k = m
    · subst hk
      simp [signalLoop, hnomatch, hexit]
    · have hkm2 : k < m := lt_of_le_of_ne hkm hk
      have hj := hfirst k le_rfl hkm2
      simp only [signalLoop, hj.1, hj.2, Bool.false_eq_true, if_false]
      exact ih (k + 1) m c (by omega) (by omega) hnomatch hexit
        (fun j hj1 hj2 => hfirst j (by omega) hj2)

theorem urlLoop_timeout (name : String) (b : ProcBehavior) (T p : Nat) :
    ∀ fuel k,
    (∀ j, k ≤ j → j < k + fuel → fetchOk (b.fetchReadyAt (p * j)) = false) →
    urlLoop name b T p fuel k =
      WaitResult.failed (notReadyMessage name T (b.output T)) true T := by
  intro fuel
  induction fuel with
  | zero => intro k _; rfl
  | succ n ih =>
    intro k h
    have hk := h k le_rfl (by omega)
    simp only [urlLoop, hk, Bool.false_eq_true, if_false]
    exact ih (k + 1) (fun j hj1 hj2 => h j (by omega) (by omega))

theorem urlLoop_ready (name : String) (b : ProcBehavior) (T p : Nat) :
    ∀ fuel k m,
    k ≤ m → m < k + fuel →
    fetchOk (b.fetchReadyAt (p * m)) = true →
    (∀ j, k ≤ j → j < m → fetchOk (b.fetchReadyAt (p * j)) = false) →
    urlLoop name b T p fuel k = WaitResult.ready (p * m) := by
  intro fuel
  induction fuel with
  | zero => intro k m h1 h2 _ _; omega
  | succ n ih =>
    intro k m hkm hlt hok hfirst
    by_cases hk : k = m
    · subst hk
      simp [urlLoop, hok]
    · have hkm2 : k < m := lt_of_le_of_ne hkm hk
      have hj := hfirst k le_rfl hkm2
      simp only [urlLoop, hj, Bool.false_eq_true, if_false]
      exact ih (k + 1) m (by omega) (by omega) hok
        (fun j hj1 hj2 => hfirst j (by omega) hj2)

/-- A tick index fires before the timeout iff its instant is strictly
below the timeout (`0 < p`). -/
theorem tick_lt_iff {p T m : Nat} (hp : 0 < p) :
    m ≤ intervalTicks T p ↔ p * m ≤ T - 1 := by
  unfold intervalTicks
  rw [Nat.le_div_iff_mul_le hp, Nat.mul_comm]

-- ### Claims C1–C4 about `startService`

/-- Claim C1, amended: with neither `signal` nor `url` configured (JS
truthiness), `startService` rejects immediately with the configuration
message `[name] No ready signal or URL configured` — but the spawned
process is NOT killed before the error is reported: the handle's `killed`
flag is false and, when the process has not already exited on its own,
it is still alive when the rejection is delivered (it is reaped only by
the zombie registry's sweep at host-process exit). -/
theorem startService_missingReady_configError
    (cfg : ServiceConfig) (hasGpu : Bool) (b : ProcBehavior)
    (hgpu : cfg.requiresGpu = true → hasGpu = true)
    (hsig : optTruthy cfg.ready.signal = none)
    (hurl : optTruthy cfg.ready.url = none) :
    ∃ st : ProcState,
      startService cfg hasGpu b =
        StartResult.err (noReadyConfigMessage cfg.name) st ∧
      strIncludes (noReadyConfigMessage cfg.name) (nameTag cfg.name) = true ∧
      strIncludes (noReadyConfigMessage cfg.name)
        "No ready signal or URL configured" = true ∧
      st.killed = false ∧
      (exitCodeAt b 0 = none → isAliveState st = true) := by
  have hGuard : (cfg.requiresGpu && !hasGpu) = false := by
    cases hg : cfg.requiresGpu
    · rfl
    · simp [hgpu hg]
  refine ⟨{ killed := false, exitCode := exitCodeAt b 0 }, ?_, ?_, ?_, rfl, ?_⟩
  · unfold startService
    rw [hGuard]
    simp only [Bool.false_eq_true, if_false]
    unfold waitForReady
    rw [hsig, hurl]
  · exact strIncludes_append_left _ (strIncludes_self _)
  · exact strIncludes_append_right _ (by decide)
  · intro h
    simp [isAliveState, h]

theorem startService_missingReady_configError_witness :
    ∃ st : ProcState,
      startService
        { name := "w1", command := "node", args := [],
          ready := { signal := none, url := none, pollMs := none },
          healthUrl := none, startTimeoutMs := some 1000,
          stopTimeoutMs := none, requiresGpu := false }
        true
        { output := fun _ => "", exitAt := none,
          fetchReadyAt := fun _ => FetchOutcome.failure } =
        StartResult.err (noReadyConfigMessage "w1") st ∧
      strIncludes (noReadyConfigMessage "w1") (nameTag "w1") = true ∧
      strIncludes (noReadyConfigMessage "w1")
        "No ready signal or URL configured" = true ∧
      st.killed = false ∧
      (exitCodeAt
        { output := fun _ => "", exitAt := none,
          fetchReadyAt := fun _ => FetchOutcome.failure } 0 = none →
        isAliveState st = true) :=
  startService_missingReady_configError _ _ _ (by decide) rfl rfl

/-- Counterexample to claim C1 as stated: a config with neither signal
nor url.  `startService` rejects with the configuration error, yet the
spawned process has NOT been killed (`killed = false`) and is still
alive at the moment the error is reported — refuting "the process that
was spawned is killed before the error is reported, so no process is
left running". -/
theorem startService_missingReady_notKilled_cex :
    startService
      { name := "api", command := "node", args := [],
        ready := { signal := none, url := none, pollMs := none },
        healthUrl := none, startTimeoutMs := some 1000,
        stopTimeoutMs := none, requiresGpu := false }
      true
      { output := fun _ => "", exitAt := none,
        fetchReadyAt := fun _ => FetchOutcome.failure } =
      StartResult.err "[api] No ready signal or URL configured"
        { killed := false, exitCode := none } ∧
    isAliveState { killed := false, exitCode := none } = true := by decide

/-- Claim C3: when the configured readiness strategy never succeeds
before the start timeout elapses (signal never contained in the output
and, in the signal case, no exit observed first; url never returning a
2xx), `startService` rejects with the `Not ready within` message carrying
the trailing output, and the process has been SIGKILLed by the timeout
handler, so it is no longer alive afterwards. -/
theorem startService_timeout_rejects_killed
    (cfg : ServiceConfig) (hasGpu : Bool) (b : ProcBehavior)
    (hgpu : cfg.requiresGpu = true → hasGpu = true)
    (h :
      (∃ sig, optTruthy cfg.ready.signal = some sig ∧
        ∀ t, t < cfg.startTimeoutMs.getD 15000 →
          strIncludes (b.output t) sig = false ∧ exitCodeAt b t = none) ∨
      (optTruthy cfg.ready.signal = none ∧
        (∃ u, optTruthy cfg.ready.url = some u) ∧
        ∀ t, t < cfg.startTimeoutMs.getD 15000 →
          fetchOk (b.fetchReadyAt t) = false)) :
    ∃ st : ProcState,
      startService cfg hasGpu b =
        StartResult.err
          (notReadyMessage cfg.name (cfg.startTimeoutMs.getD 15000)
            (b.output (cfg.startTimeoutMs.getD 15000))) st ∧
      strIncludes
        (notReadyMessage cfg.name (cfg.startTimeoutMs.getD 15000)
          (b.output (cfg.startTimeoutMs.getD 15000)))
        "Not ready within" = true ∧
      strIncludes
        (notReadyMessage cfg.name (cfg.startTimeoutMs.getD 15000)
          (b.output (cfg.startTimeoutMs.getD 15000)))
        (sliceLast (b.output (cfg.startTimeoutMs.getD 15000)) 500) = true ∧
      st.killed = true ∧
      isAliveState st = false := by
  have hGuard : (cfg.requiresGpu && !hasGpu) = false := by
    cases hg : cfg.requiresGpu
    · rfl
    · simp [hgpu hg]
  have hwait : waitForReady cfg.name cfg.ready (cfg.startTimeoutMs.getD 15000) b =
      WaitResult.failed
        (notReadyMessage cfg.name (cfg.startTimeoutMs.getD 15000)
          (b.output (cfg.startTimeoutMs.getD 15000)))
        true (cfg.startTimeoutMs.getD 15000) := by
    rcases h with ⟨sig, hs, hcond⟩ | ⟨hs, ⟨u, hu⟩, hcond⟩
    · unfold waitForReady
      rw [hs]
      apply signalLoop_timeout
      intro j hj1 hj2
      have hjN : j ≤ intervalTicks (cfg.startTimeoutMs.getD 15000) 50 := by omega
      have hjb := (tick_lt_iff (by norm_num)).mp hjN
      exact hcond (50 * j) (by omega)
    · unfold waitForReady
      rw [hs, hu]
      apply urlLoop_timeout
      intro j hj1 hj2
      have hp : 0 < max 1 (cfg.ready.pollMs.getD 500) :=
        Nat.lt_of_lt_of_le Nat.zero_lt_one (le_max_left 1 _)
      have hjN :
          j ≤ intervalTicks (cfg.startTimeoutMs.getD 15000)
            (max 1 (cfg.ready.pollMs.getD 500)) := by omega
      have hjb := (tick_lt_iff hp).mp hjN
      have hX1 : 1 ≤ max 1 (cfg.ready.pollMs.getD 500) * j :=
        Nat.mul_le_mul (le_max_left 1 _) hj1
      exact hcond (max 1 (cfg.ready.pollMs.getD 500) * j) (by omega)
  refine ⟨{ killed := true,
            exitCode := exitCodeAt b (cfg.startTimeoutMs.getD 15000) },
    ?_, ?_, ?_, rfl, by simp [isAliveState]⟩
  · unfold startService
    rw [hGuard]
    simp only [Bool.false_eq_true, if_false]
    rw [hwait]
  · unfold notReadyMessage
    apply strIncludes_append_left
    apply strIncludes_append_left
    apply strIncludes_append_left
    exact strIncludes_append_right _ (by decide)
  · exact strIncludes_append_self _ _

theorem startService_timeout_rejects_killed_witness :
    ∃ st : ProcState,
      startService
        { name := "w3", command := "sleep", args := ["100"],
          ready := { signal := some "never", url := none, pollMs := none },
          healthUrl := none, startTimeoutMs := some 100,
          stopTimeoutMs := none, requiresGpu := false }
        true
        { output := fun _ => "booting", exitAt := none,
          fetchReadyAt := fun _ => FetchOutcome.failure } =
        StartResult.err (notReadyMessage "w3" 100 "booting") st ∧
      strIncludes (notReadyMessage "w3" 100 "booting") "Not ready within" = true ∧
      strIncludes (notReadyMessage "w3" 100 "booting")
        (sliceLast "booting" 500) = true ∧
      st.killed = true ∧
      isAliveState st = false :=
  startService_timeout_rejects_killed _ _ _ (by decide)
    (Or.inl ⟨"never", rfl, by decide⟩)

/-- Counterexample to claim C2 as stated: under the URL strategy the
readiness loop performs no exit check, so a process that exits (code 7,
at 100 ms) long before readiness is NOT reported with its exit code —
`startService` instead runs to the start timeout and rejects with the
`Not ready within` message, which contains neither `Exited with code`
nor the digit of the exit code. -/
theorem startService_urlStrategy_earlyExit_cex :
    startService
      { name := "u", command := "node", args := [],
        ready := { signal := none, url := some "http://localhost:9/health",
                   pollMs := some 500 },
        healthUrl := none, startTimeoutMs := some 2000,
        stopTimeoutMs := none, requiresGpu := false }
      true
      { output := fun _ => "", exitAt := some (100, 7),
        fetchReadyAt := fun _ => FetchOutcome.failure } =
      StartResult.err (notReadyMessage "u" 2000 "")
        { killed := true, exitCode := some 7 } ∧
    strIncludes (notReadyMessage "u" 2000 "") "Exited with code" = false ∧
    strIncludes (notReadyMessage "u" 2000 "") "7" = false := by decide

/-- Claim C2, amended: the exit-before-ready diagnostic holds for the
SIGNAL strategy only (the url strategy has no exit check, see the
counterexample).  If, at some 50 ms poll tick before the start timeout,
the process has exited with code `c` without the signal having appeared
(and no earlier tick was decisive), `startService` rejects with a message
containing `[name]`, the exit code and the last 500 characters of the
captured output. -/
theorem startService_signalStrategy_earlyExit_rejects
    (cfg : ServiceConfig) (hasGpu : Bool) (b : ProcBehavior)
    (sig : String) (m c : Nat)
    (hgpu : cfg.requiresGpu = true → hasGpu = true)
    (hs : optTruthy cfg.ready.signal = some sig)
    (hm1 : 1 ≤ m)
    (hmT : 50 * m < cfg.startTimeoutMs.getD 15000)
    (hnomatch : strIncludes (b.output (50 * m)) sig = false)
    (hexit : exitCodeAt b (50 * m) = some c)
    (hfirst : ∀ j, j < m → 1 ≤ j →
      strIncludes (b.output (50 * j)) sig = false ∧
      exitCodeAt b (50 * j) = none) :
    ∃ st : ProcState,
      startService cfg hasGpu b =
        StartResult.err (exitedMessage cfg.name c (b.output (50 * m))) st ∧
      strIncludes (exitedMessage cfg.name c (b.output (50 * m)))
        (nameTag cfg.name) = true ∧
      strIncludes (exitedMessage cfg.name c (b.output (50 * m)))
        (toString c) = true ∧
      strIncludes (exitedMessage cfg.name c (b.output (50 * m)))
        (sliceLast (b.output (50 * m)) 500) = true ∧
      st.killed = false ∧ st.exitCode = some c := by
  have hGuard : (cfg.requiresGpu && !hasGpu) = false := by
    cases hg : cfg.requiresGpu
    · rfl
    · simp [hgpu hg]
  have hwait : waitForReady cfg.name cfg.ready (cfg.startTimeoutMs.getD 15000) b =
      WaitResult.failed (exitedMessage cfg.name c (b.output (50 * m)))
        false (50 * m) := by
    unfold waitForReady
    rw [hs]
    refine signalLoop_exit _ _ _ _ _ _ _ _ hm1 ?_ hnomatch hexit
      (fun j hj1 hj2 => hfirst j hj2 hj1)
    have hmN : m ≤ intervalTicks (cfg.startTimeoutMs.getD 15000) 50 :=
      (tick_lt_iff (by norm_num)).mpr (by omega)
    omega
  refine ⟨{ killed := false, exitCode := exitCodeAt b (50 * m) },
    ?_, ?_, ?_, ?_, rfl, hexit⟩
  · unfold startService
    rw [hGuard]
    simp only [Bool.false_eq_true, if_false]
    rw [hwait]
  · unfold exitedMessage
    apply strIncludes_append_left
    apply strIncludes_append_left
    apply strIncludes_append_left
    exact strIncludes_append_left _ (strIncludes_self _)
  · unfold exitedMessage
    apply strIncludes_append_left
    apply strIncludes_append_left
    exact strIncludes_append_self _ _
  · exact strIncludes_append_self _ _

theorem startService_signalStrategy_earlyExit_witness :
    ∃ st : ProcState,
      startService
        { name := "w2", command := "node", args := [],
          ready := { signal := some "never", url := none, pollMs := none },
          healthUrl := none, startTimeoutMs := some 200,
          stopTimeoutMs := none, requiresGpu := false }
        true
        { output := fun _ => "", exitAt := some (60, 3),
          fetchReadyAt := fun _ => FetchOutcome.failure } =
        StartResult.err (exitedMessage "w2" 3 "") st ∧
      strIncludes (exitedMessage "w2" 3 "") (nameTag "w2") = true ∧
      strIncludes (exitedMessage "w2" 3 "") (toString 3) = true ∧
      strIncludes (exitedMessage "w2" 3 "") (sliceLast "" 500) = true ∧
      st.killed = false ∧ st.exitCode = some 3 :=
  startService_signalStrategy_earlyExit_rejects _ _ _ "never" 2 3
    (by decide) rfl (by decide) (by decide) (by decide) (by decide) (by decide)

/-- Counterexample to claim C4 as stated: readiness is only checked at
50 ms interval ticks, so a signal first present at 55 ms with a 60 ms
start timeout (process never exits) is never observed — the 50 ms tick
misses it and the 60 ms timeout fires first, so `startService` rejects
instead of resolving. -/
theorem startService_signal_lastMoment_missed_cex :
    strIncludes
      ((fun t => if 55 ≤ t then "READY" else "") 55 : String) "READY" = true ∧
    (55 : Nat) < 60 ∧
    startService
      { name := "svc", command := "node", args := [],
        ready := { signal := some "READY", url := none, pollMs := none },
        healthUrl := none, startTimeoutMs := some 60,
        stopTimeoutMs := none, requiresGpu := false }
      true
      { output := fun t => if 55 ≤ t then "READY" else "",
        exitAt := none, fetchReadyAt := fun _ => FetchOutcome.failure } =
      StartResult.err (notReadyMessage "svc" 60 "READY")
        { killed := true, exitCode := none } := by decide

/-- Claim C4, amended: if the accumulated output contains the signal at
some 50 ms poll tick strictly before the start timeout (no earlier tick
was decisive) and the process has not exited by that tick, `startService`
resolves with a `RunningService` whose startup time is that tick and on
which `isAlive()` is true. -/
theorem startService_signal_polled_resolves_alive
    (cfg : ServiceConfig) (hasGpu : Bool) (b : ProcBehavior)
    (sig : String) (m : Nat)
    (hgpu : cfg.requiresGpu = true → hasGpu = true)
    (hs : optTruthy cfg.ready.signal = some sig)
    (hm1 : 1 ≤ m)
    (hmT : 50 * m < cfg.startTimeoutMs.getD 15000)
    (hmatch : strIncludes (b.output (50 * m)) sig = true)
    (hfirst : ∀ j, j < m → 1 ≤ j →
      strIncludes (b.output (50 * j)) sig = false ∧
      exitCodeAt b (50 * j) = none)
    (hnoexit : exitCodeAt b (50 * m) = none) :
    ∃ svc : RunningServiceModel,
      startService cfg hasGpu b = StartResult.ok svc ∧
      svc.name = cfg.name ∧
      svc.startupMs = 50 * m ∧
      isAliveState svc.procState = true := by
  have hGuard : (cfg.requiresGpu && !hasGpu) = false := by
    cases hg : cfg.requiresGpu
    · rfl
    · simp [hgpu hg]
  have hwait : waitForReady cfg.name cfg.ready (cfg.startTimeoutMs.getD 15000) b =
      WaitResult.ready (50 * m) := by
    unfold waitForReady
    rw [hs]
    refine signalLoop_ready _ _ _ _ _ _ _ hm1 ?_ hmatch
      (fun j hj1 hj2 => hfirst j hj2 hj1)
    have hmN : m ≤ intervalTicks (cfg.startTimeoutMs.getD 15000) 50 :=
      (tick_lt_iff (by norm_num)).mpr (by omega)
    omega
  refine ⟨{ name := cfg.name, startupMs := 50 * m,
            healthUrl := cfg.healthUrl,
            stopTimeoutMs := cfg.stopTimeoutMs.getD 5000,
            procState := { killed := false,
                           exitCode := exitCodeAt b (50 * m) } },
    ?_, rfl, rfl, ?_⟩
  · unfold startService
    rw [hGuard]
    simp only [Bool.false_eq_true, if_false]
    rw [hwait]
  · simp [isAliveState, hnoexit]

theorem startService_signal_polled_resolves_alive_witness :
    ∃ svc : RunningServiceModel,
      startService
        { name := "w4", command := "node", args := [],
          ready := { signal := some "Ready on port", url := none,
                     pollMs := none },
          healthUrl := none, startTimeoutMs := some 5000,
          stopTimeoutMs := none, requiresGpu := false }
        true
        { output := fun t => if 80 ≤ t then "Ready on port 4321" else "",
          exitAt := none, fetchReadyAt := fun _ => FetchOutcome.failure } =
        StartResult.ok svc ∧
      svc.name = "w4" ∧
      svc.startupMs = 50 * 2 ∧
      isAliveState svc.procState = true :=
  startService_signal_polled_resolves_alive _ _ _ "Ready on port" 2
    (by decide) rfl (by decide) (by decide) (by decide) (by decide) (by decide)

-- ### `startCluster` / `stopAll` (cluster control flow)

/-- A cluster member as the cluster-level control flow sees it: the name,
the outcome of `startService` for its config, and the outcome its
`stop()` would produce.  (In the real code `stop()` never rejects — see
`stopProcess` below — but the cluster logic guards every stop with
`.catch(() => {})`, so the model lets a stop fail to show the guard.) -/
structure ClusterMember where
  name : String
  startResult : Except String Unit
  stopResult : Except String Unit

/-- `await s.stop().catch(() => {})` for each member of `l`, in the order
given, collecting the names stop was requested on.  An uncaught rejection
would abort the loop and propagate (second component); the `catch` turns
each member's failure into success, so the loop always continues. -/
def stopLoop : List ClusterMember → List String × Except String Unit
  | [] => ([], Except.ok ())
  | s :: rest =>
    let caught : Except String Unit :=
      match s.stopResult with
      | Except.ok u => Except.ok u
      | Except.error _ => Except.ok ()
    match caught with
    | Except.ok _ =>
      let tail := stopLoop rest
      (s.name :: tail.1, tail.2)
    | Except.error e => ([s.name], Except.error e)

/-- `stopAll: for (const s of [...services].reverse()) await s.stop().catch(...)`. -/
def stopAll (services : List ClusterMember) : List String × Except String Unit :=
  stopLoop services.reverse

/-- The `try`/`catch` body of `startCluster`: start each config in order;
on the first failure, roll back the already-started members in reverse
order (`services.reverse()`, stops guarded by `.catch`) and re-throw the
original error (an uncaught stop rejection would propagate instead). -/
def startClusterGo :
    List ClusterMember → List ClusterMember →
      List String × Except String (List ClusterMember)
  | started, [] => ([], Except.ok started)
  | started, c :: rest =>
    match c.startResult with
    | Except.ok _ => startClusterGo (started ++ [c]) rest
    | Except.error e =>
      let rollback := stopLoop started.reverse
      match rollback.2 with
      | Except.ok _ => (rollback.1, Except.error e)
      | Except.error e2 => (rollback.1, Except.error e2)

/-- `startCluster(configs)`: the stop requests issued (in order) and the
overall result. -/
def startCluster (configs : List ClusterMember) :
    List String × Except String (List ClusterMember) :=
  startClusterGo [] configs

theorem stopLoop_spec : ∀ l : List ClusterMember,
    stopLoop l = (l.map ClusterMember.name, Except.ok ()) := by
  intro l
  induction l with
  | nil => rfl
  | cons s rest ih =>
    cases hs : s.stopResult with
    | ok u => simp [stopLoop, hs, ih]
    | error e => simp [stopLoop, hs, ih]

theorem startClusterGo_ok_run :
    ∀ (pre : List ClusterMember) (started rest : List ClusterMember),
    (∀ x ∈ pre, x.startResult = Except.ok ()) →
    startClusterGo started (pre ++ rest) = startClusterGo (started ++ pre) rest := by
  intro pre
  induction pre with
  | nil => intro started rest _; simp
  | cons c t ih =>
    intro started rest hok
    have hc : c.startResult = Except.ok () := hok c (by simp)
    have step : startClusterGo started ((c :: t) ++ rest) =
        startClusterGo (started ++ [c]) (t ++ rest) := by
      simp only [List.cons_append, startClusterGo, hc]
      rfl
    rw [step, ih (started ++ [c]) rest (fun x hx => hok x (by simp [hx])),
      List.append_assoc]
    rfl

/-- Claim C5: when the configs before position K all start successfully
and the K-th fails, `startCluster` issues a stop request to exactly those
first K-1 members, in reverse start order, regardless of whether any of
those stops fail (the `.catch` swallows them), and rejects with exactly
the K-th member's original failure. -/
theorem startCluster_rollback
    (pre : List ClusterMember) (c : ClusterMember) (post : List ClusterMember)
    (e : String)
    (hok : ∀ x ∈ pre, x.startResult = Except.ok ())
    (hfail : c.startResult = Except.error e) :
    startCluster (pre ++ c :: post) =
      ((pre.map ClusterMember.name).reverse, Except.error e) := by
  unfold startCluster
  rw [startClusterGo_ok_run pre [] (c :: post) hok]
  simp only [List.nil_append, startClusterGo, hfail, stopLoop_spec]
  simp [List.map_reverse]

theorem startCluster_rollback_witness :
    startCluster
      [{ name := "a", startResult := Except.ok (),
         stopResult := Except.error "a refused to stop" },
       { name := "b", startResult := Except.ok (),
         stopResult := Except.ok () },
       { name := "x", startResult := Except.error "[x] Not ready within 100ms",
         stopResult := Except.ok () },
       { name := "z", startResult := Except.ok (),
         stopResult := Except.ok () }] =
      (["b", "a"], Except.error "[x] Not ready within 100ms") :=
  startCluster_rollback
    [{ name := "a", startResult := Except.ok (),
       stopResult := Except.error "a refused to stop" },
     { name := "b", startResult := Except.ok (),
       stopResult := Except.ok () }]
    { name := "x", startResult := Except.error "[x] Not ready within 100ms",
      stopResult := Except.ok () }
    [{ name := "z", startResult := Except.ok (), stopResult := Except.ok () }]
    "[x] Not ready within 100ms"
    (by simp) rfl

/-- Claim C7: `stopAll` sends a stop request to every member, in reverse
start order, one after the other; the `.catch(() => {})` guard swallows
each member's failure, so every member is attempted no matter what the
earlier stops did, and `stopAll` itself always resolves (never an
`Except.error`). -/
theorem stopAll_reverse_never_rejects (services : List ClusterMember) :
    stopAll services =
      ((services.map ClusterMember.name).reverse, Except.ok ()) := by
  unfold stopAll
  rw [stopLoop_spec]
  simp [List.map_reverse]

-- ### `stopProcess` (single-service stop)

/-- `stopProcess(proc, name, timeoutMs)` over the handle state: returns
immediately when `proc.killed || proc.exitCode !== null`; otherwise sends
SIGTERM and waits for the exit event up to the stop timeout, then SIGKILLs
and resolves anyway.  `termExit = some c` means the process would exit
voluntarily with code `c` within the stop timeout after SIGTERM; `none`
means it would not.  The promise executor only ever resolves, so the
error branch of the `Except` is never produced. -/
def stopProcess (st : ProcState) (termExit : Option Nat) :
    Except String ProcState :=
  if st.killed || st.exitCode.isSome then Except.ok st
  else
    match termExit with
    | some c => Except.ok { killed := true, exitCode := some c }
    | none => Except.ok { killed := true, exitCode := st.exitCode }

/-- Claim C6: `stop()` is idempotent — the first call resolves (never
rejects) with some final handle state, a second call resolves immediately
leaving that state unchanged, and on a process that has already exited
(or was already killed) the call resolves at once without touching the
state. -/
theorem stopProcess_idempotent (st : ProcState) (t1 t2 : Option Nat) :
    ∃ st1 : ProcState,
      stopProcess st t1 = Except.ok st1 ∧
      stopProcess st1 t2 = Except.ok st1 ∧
      (st.exitCode.isSome = true → st1 = st) ∧
      (st.killed = true → st1 = st) := by
  cases hk : st.killed
  · cases he : st.exitCode with
    | none =>
      cases t1 with
      | none =>
        refine ⟨{ killed := true, exitCode := st.exitCode }, ?_, ?_, ?_, ?_⟩
        · simp [stopProcess, hk, he]
        · simp [stopProcess]
        · intro h; simp [he] at h
        · intro h; simp [hk] at h
      | some c =>
        refine ⟨{ killed := true, exitCode := some c }, ?_, ?_, ?_, ?_⟩
        · simp [stopProcess, hk, he]
        · simp [stopProcess]
        · intro h; simp [he] at h
        · intro h; simp [hk] at h
    | some c =>
      refine ⟨st, ?_, ?_, fun _ => rfl, fun _ => rfl⟩
      · simp [stopProcess, he]
      · simp [stopProcess, he]
  · refine ⟨st, ?_, ?_, fun _ => rfl, fun _ => rfl⟩
    · simp [stopProcess, hk]
    · simp [stopProcess, hk]

theorem stopProcess_idempotent_witness :
    ∃ st1 : ProcState,
      stopProcess { killed := false, exitCode := none } (some 0) =
        Except.ok st1 ∧
      stopProcess st1 none = Except.ok st1 ∧
      (({ killed := false, exitCode := none } : ProcState).exitCode.isSome =
          true → st1 = { killed := false, exitCode := none }) ∧
      (({ killed := false, exitCode := none } : ProcState).killed = true →
        st1 = { killed := false, exitCode := none }) :=
  stopProcess_idempotent { killed := false, exitCode := none } (some 0) none

-- ### `isHealthy`

/-- `isHealthy: async () => { if (!health?.url) return service.isAlive();
try { const res = await fetch(health.url, { signal: AbortSignal.timeout(2000) });
return res.ok; } catch { return false; } }`.
`fetched` is the outcome of that single bounded (≈2 s) request; a thrown
fetch error is `FetchOutcome.failure`. -/
def isHealthy (healthUrl : Option String) (st : ProcState)
    (fetched : FetchOutcome) : Except String Bool :=
  match optTruthy healthUrl with
  | none => Except.ok (isAliveState st)
  | some _ =>
    match fetched with
    | FetchOutcome.failure => Except.ok false
    | FetchOutcome.response s =>
      Except.ok (decide (200 ≤ s) && decide (s < 300))

/-- Claim C8: `isHealthy` always resolves with a boolean (never rejects);
without a configured health URL the boolean is exactly `isAlive()`, and
with one it is true exactly when the bounded request produced a 2xx-class
response (network errors and non-2xx responses give false). -/
theorem isHealthy_spec (u : Option String) (st : ProcState)
    (f : FetchOutcome) :
    ∃ res : Bool, isHealthy u st f = Except.ok res ∧
      (optTruthy u = none → res = isAliveState st) ∧
      (∀ x, optTruthy u = some x →
        (res = true ↔ ∃ s, f = FetchOutcome.response s ∧ 200 ≤ s ∧ s < 300)) := by
  cases hu : optTruthy u with
  | none =>
    refine ⟨isAliveState st, ?_, fun _ => rfl, ?_⟩
    · simp [isHealthy, hu]
    · intro x hx
      simp at hx
  | some x0 =>
    cases f with
    | failure =>
      refine ⟨false, ?_, ?_, ?_⟩
      · simp [isHealthy, hu]
      · intro h; simp at h
      · intro x _
        simp
    | response s =>
      refine ⟨decide (200 ≤ s) && decide (s < 300), ?_, ?_, ?_⟩
      · simp [isHealthy, hu]
      · intro h; simp at h
      · intro x _
        constructor
        · intro h
          simp only [Bool.and_eq_true, decide_eq_true_eq] at h
          exact ⟨s, rfl, h.1, h.2⟩
        · rintro ⟨s2, hs2, h1, h2⟩
          cases hs2
          simp [h1, h2]

theorem isHealthy_spec_witness :
    ∃ res : Bool,
      isHealthy (some "http://localhost:8000/health")
        { killed := false, exitCode := none } (FetchOutcome.response 200) =
        Except.ok res ∧
      (optTruthy (some "http://localhost:8000/health") = none →
        res = isAliveState { killed := false, exitCode := none }) ∧
      (∀ x, optTruthy (some "http://localhost:8000/health") = some x →
        (res = true ↔ ∃ s, FetchOutcome.response 200 = FetchOutcome.response s ∧
          200 ≤ s ∧ s < 300)) :=
  isHealthy_spec (some "http://localhost:8000/health")
    { killed := false, exitCode := none } (FetchOutcome.response 200)

-- ### `assertPerformance`

/-- The subset of a `RunningService` that `assertPerformance` reads:
the name, the recorded `startupMs`, and `stats().memoryMb` (which is
`null` when `/proc/<pid>/status` is unavailable or unparsable). -/
structure ServicePerfView where
  name : String
  startupMs : Nat
  memoryMb : Option Nat
deriving DecidableEq

/-- `PerformanceRequirement` — `maxResponseMs` is declared in the source
but never read by `assertPerformance`. -/
structure PerformanceRequirement where
  maxStartupMs : Option Nat
  maxMemoryMb : Option Nat
  maxResponseMs : Option Nat
deriving DecidableEq

/-- `assertPerformance(service, requirements)`: first the startup check
(throws when `service.startupMs > requirements.maxStartupMs`), then the
memory check (throws when the reading is non-null and exceeds the bound). -/
def assertPerformance (service : ServicePerfView)
    (requirements : PerformanceRequirement) : Except String Unit :=
  match
    (match requirements.maxStartupMs with
     | some m =>
       if service.startupMs > m then
         Except.error (nameTag service.name ++ " Startup too slow: " ++
           toString service.startupMs ++ "ms > " ++ toString m ++ "ms")
       else Except.ok ()
     | none => Except.ok ()) with
  | Except.error e => Except.error e
  | Except.ok _ =>
    match requirements.maxMemoryMb with
    | some m =>
      match service.memoryMb with
      | some mem =>
        if mem > m then
          Except.error (nameTag service.name ++ " Memory too high: " ++
            toString mem ++ "MB > " ++ toString m ++ "MB")
        else Except.ok ()
      | none => Except.ok ()
    | none => Except.ok ()

/-- Claim C9: with `{ maxStartupMs: M }`, `assertPerformance` throws an
error whose message contains `[name]` and `Startup too slow` exactly when
`startupMs > M`, and does not throw when `startupMs ≤ M` (in particular
at the boundary `startupMs = M`). -/
theorem assertPerformance_maxStartup (service : ServicePerfView) (M : Nat) :
    (M < service.startupMs →
      ∃ msg, assertPerformance service
          { maxStartupMs := some M, maxMemoryMb := none,
            maxResponseMs := none } = Except.error msg ∧
        strIncludes msg "Startup too slow" = true ∧
        strIncludes msg (nameTag service.name) = true) ∧
    (service.startupMs ≤ M →
      assertPerformance service
        { maxStartupMs := some M, maxMemoryMb := none,
          maxResponseMs := none } = Except.ok ()) := by
  constructor
  · intro h
    refine ⟨nameTag service.name ++ " Startup too slow: " ++
      toString service.startupMs ++ "ms > " ++ toString M ++ "ms", ?_, ?_, ?_⟩
    · simp [assertPerformance, h]
    · apply strIncludes_append_left
      apply strIncludes_append_left
      apply strIncludes_append_left
      apply strIncludes_append_left
      exact strIncludes_append_right _ (by decide)
    · apply strIncludes_append_left
      apply strIncludes_append_left
      apply strIncludes_append_left
      apply strIncludes_append_left
      exact strIncludes_append_left _ (strIncludes_self _)
  · intro h
    have hn : ¬ M < service.startupMs := Nat.not_lt.mpr h
    simp [assertPerformance, hn]

theorem assertPerformance_maxStartup_witness :
    (∃ msg, assertPerformance
        { name := "slow", startupMs := 1001, memoryMb := none }
        { maxStartupMs := some 1000, maxMemoryMb := none,
          maxResponseMs := none } = Except.error msg ∧
      strIncludes msg "Startup too slow" = true ∧
      strIncludes msg (nameTag "slow") = true) ∧
    assertPerformance { name := "ok", startupMs := 1000, memoryMb := none }
      { maxStartupMs := some 1000, maxMemoryMb := none,
        maxResponseMs := none } = Except.ok () :=
  ⟨(assertPerformance_maxStartup
      { name := "slow", startupMs := 1001, memoryMb := none } 1000).1
      (by decide),
   (assertPerformance_maxStartup
      { name := "ok", startupMs := 1000, memoryMb := none } 1000).2
      (by decide)⟩

/-- Claim C10: with `{ maxMemoryMb: M }`, an unavailable memory reading
(`stats().memoryMb === null`) silently passes the memory requirement —
`assertPerformance` does not throw, no matter how small `M` is. -/
theorem assertPerformance_nullMemory_passes (service : ServicePerfView)
    (M : Nat) (hmem : service.memoryMb = none) :
    assertPerformance service
      { maxStartupMs := none, maxMemoryMb := some M,
        maxResponseMs := none } = Except.ok () := by
  simp [assertPerformance, hmem]

theorem assertPerformance_nullMemory_passes_witness :
    assertPerformance { name := "svc", startupMs := 12345, memoryMb := none }
      { maxStartupMs := none, maxMemoryMb := some 0,
        maxResponseMs := none } = Except.ok () :=
  assertPerformance_nullMemory_passes
    { name := "svc", startupMs := 12345, memoryMb := none } 0 rfl
